import Mathlib

/-!
Verification of the Pixhawk → Raspberry Pi → Parrot Sequoia capture
controller (`Sequoia.py`).

The controller state is a shallow embedding of the mutable fields of
`PixhawkSequoiaTrigger`.  Timestamps (`time.time()` floats) are modelled as
rationals; counters as naturals.  The GPIO edge callback
(`pixhawk_trigger_callback`) and the capture worker (`execute_capture`) are
translated as pure state transformers; the external `gphoto2` subprocess and
`os.path.getsize` are modelled by an environment value recording how the
outside world responds.  An interleaving small-step semantics (`sysStep`)
models the spawned worker threads for the concurrency claims.
-/

/-- The mutable fields of `PixhawkSequoiaTrigger` (lines 59-75 plus the
status LED output pin state, driven LOW at setup). -/
structure TriggerState where
  capture_count : Nat
  last_trigger_time : ℚ
  is_capturing : Bool
  total_triggers : Nat
  successful_captures : Nat
  failed_captures : Nat
  debounce_time : ℚ
  capture_timeout : ℚ
  session_start_time : ℚ
  session_start : String
  status_led : Bool
deriving DecidableEq

/-- Constructor state (`__init__`): counters zero, `last_trigger_time = 0`, `is_capturing = False`,
`debounce_time = 0.1`, `capture_timeout = 30`, LED LOW. -/
def initState (session_start_time : ℚ) (session_start : String) : TriggerState :=
  { capture_count := 0
    last_trigger_time := 0
    is_capturing := false
    total_triggers := 0
    successful_captures := 0
    failed_captures := 0
    debounce_time := 1/10
    capture_timeout := 30
    session_start_time := session_start_time
    session_start := session_start
    status_led := false }

/-- What a single run of `pixhawk_trigger_callback` did: returned at the
debounce check, returned at the busy check (after counting the trigger), or
started a capture thread for the given trigger number. -/
inductive CallbackAction where
  | discarded
  | busyIgnored
  | dispatched (trigger_number : Nat)
deriving DecidableEq

/-- Edge callback `pixhawk_trigger_callback` (lines 143-169): software debounce, then
`last_trigger_time` and `total_triggers` update, then the busy check, then
LED on and thread dispatch carrying the (already incremented)
`total_triggers` as the trigger number.  Note that the callback itself never
writes `is_capturing`; the spawned `execute_capture` does. -/
def pixhawk_trigger_callback (s : TriggerState) (current_time : ℚ) :
    TriggerState × CallbackAction :=
  if current_time - s.last_trigger_time < s.debounce_time then
    (s, .discarded)
  else
    let s1 : TriggerState :=
      { s with last_trigger_time := current_time
               total_triggers := s.total_triggers + 1 }
    if s1.is_capturing then
      (s1, .busyIgnored)
    else
      ({ s1 with status_led := true }, .dispatched s1.total_triggers)

/-- How the external `subprocess.run` of gphoto2 behaves on one attempt:
normal exit with a return code and stderr text, `TimeoutExpired`, or any
other exception raised inside the try block. -/
inductive SubprocessResult where
  | exited (returncode : Int) (stderr : String)
  | timedOut
  | raised (description : String)
deriving DecidableEq

/-- The external world for one capture attempt: the subprocess behaviour and
the result of `os.path.getsize` on the produced file (`none` when the stat
raises, swallowed by the bare `except` on line 204). -/
structure CaptureEnv where
  result : SubprocessResult
  file_size : Option ℚ
deriving DecidableEq

/-- Classification of one attempt, as in the spec data model. -/
inductive CaptureOutcome where
  | success (file_size : Option ℚ)
  | processFailure (diag : String)
  | timeout
  | unexpectedError (description : String)
deriving DecidableEq

/-- The try/except body of `execute_capture` (lines 176-227) without the
latch write and the finally block: classify the subprocess behaviour and
update the counters.  Return code 0 increments `capture_count` and
`successful_captures` (the getsize failure only changes logging); nonzero
exit, timeout, and unexpected exceptions each increment `failed_captures`. -/
def capture_body (s : TriggerState) (env : CaptureEnv) :
    TriggerState × CaptureOutcome :=
  match env.result with
  | .exited rc stderr =>
    if rc = 0 then
      ({ s with capture_count := s.capture_count + 1
                successful_captures := s.successful_captures + 1 },
       .success env.file_size)
    else
      ({ s with failed_captures := s.failed_captures + 1 },
       .processFailure stderr)
  | .timedOut =>
      ({ s with failed_captures := s.failed_captures + 1 }, .timeout)
  | .raised d =>
      ({ s with failed_captures := s.failed_captures + 1 },
       .unexpectedError d)

/-- Capture worker `execute_capture` (lines 171-231) as one sequential run: set
`is_capturing = True`, run the try/except body, then the finally block
(`is_capturing = False`, LED off). -/
def execute_capture (s : TriggerState) (env : CaptureEnv) :
    TriggerState × CaptureOutcome :=
  let s1 : TriggerState := { s with is_capturing := true }
  let r := capture_body s1 env
  ({ r.1 with is_capturing := false, status_led := false }, r.2)

/-- Where a spawned `execute_capture` thread currently is: before its first
statement `self.is_capturing = True` (line 173), inside the try/except body,
or with counters updated and only the finally block left. -/
inductive WPhase where
  | latchPending
  | inBody
  | inFinally
deriving DecidableEq

/-- One in-flight capture thread. -/
structure Worker where
  trigger_number : Nat
  env : CaptureEnv
  phase : WPhase
deriving DecidableEq

/-- Whole system: the shared controller state plus the in-flight capture
threads. -/
structure Sys where
  st : TriggerState
  workers : List Worker
deriving DecidableEq

/-- Scheduler commands: a rising edge arrives (running the whole callback),
or worker `i` executes its next step. -/
inductive Cmd where
  | edge (t : ℚ) (env : CaptureEnv)
  | work (i : Nat)
deriving DecidableEq

/-- Interleaving small-step semantics of the source: an edge runs the
callback and, on dispatch, appends a worker still before its latch write; a
worker step executes the next chunk of `execute_capture`. -/
def sysStep (sys : Sys) (c : Cmd) : Sys :=
  match c with
  | .edge t env =>
    let r := pixhawk_trigger_callback sys.st t
    match r.2 with
    | .dispatched n =>
        { st := r.1, workers := sys.workers ++ [⟨n, env, .latchPending⟩] }
    | _ => { sys with st := r.1 }
  | .work i =>
    match sys.workers[i]? with
    | none => sys
    | some w =>
      match w.phase with
      | .latchPending =>
          { st := { sys.st with is_capturing := true }
            workers := sys.workers.set i { w with phase := .inBody } }
      | .inBody =>
          let r := capture_body sys.st w.env
          { st := r.1, workers := sys.workers.set i { w with phase := .inFinally } }
      | .inFinally =>
          { st := { sys.st with is_capturing := false, status_led := false }
            workers := sys.workers.eraseIdx i }

/-- Run a command sequence from a system state. -/
def runCmds (sys : Sys) (cmds : List Cmd) : Sys :=
  cmds.foldl sysStep sys

/-- Fresh system at construction time. -/
def initSys (session_start_time : ℚ) (session_start : String) : Sys :=
  { st := initState session_start_time session_start, workers := [] }

/-- Spec-side variant of `sysStep`, following the words of the spec (§4.1
step 4): the busy latch is set to true by `on_edge` itself before the
asynchronous dispatch, so a dispatched worker starts directly in its body.
Used to compare the source discipline with the specified one. -/
def sysStepSpec (sys : Sys) (c : Cmd) : Sys :=
  match c with
  | .edge t env =>
    let r := pixhawk_trigger_callback sys.st t
    match r.2 with
    | .dispatched n =>
        { st := { r.1 with is_capturing := true }
          workers := sys.workers ++ [⟨n, env, .inBody⟩] }
    | _ => { sys with st := r.1 }
  | .work i => sysStep sys (.work i)

/-- Run a command sequence under the spec-side dispatch discipline. -/
def runCmdsSpec (sys : Sys) (cmds : List Cmd) : Sys :=
  cmds.foldl sysStepSpec sys

/-- Run a list of edge timestamps through the callback sequentially,
collecting each callback action. -/
def runEdgesActs (s : TriggerState) : List ℚ → TriggerState × List CallbackAction
  | [] => (s, [])
  | t :: ts =>
    let r := pixhawk_trigger_callback s t
    let rest := runEdgesActs r.1 ts
    (rest.1, r.2 :: rest.2)

/-- The dictionary returned by `get_statistics` (lines 254-264). -/
structure StatsSnapshot where
  total_triggers : Nat
  successful_captures : Nat
  failed_captures : Nat
  session_start : String
  uptime_seconds : ℚ
  success_rate_percent : ℚ
  current_status : String
deriving DecidableEq

/-- Snapshot `get_statistics`: spreads the stats counters and adds uptime, the
success rate percentage `successful / max(total, 1) * 100`, and the current
status string derived from `is_capturing`. -/
def get_statistics (s : TriggerState) (now : ℚ) : StatsSnapshot :=
  { total_triggers := s.total_triggers
    successful_captures := s.successful_captures
    failed_captures := s.failed_captures
    session_start := s.session_start
    uptime_seconds := now - s.session_start_time
    success_rate_percent :=
      ((s.successful_captures : ℚ) / ((max s.total_triggers 1 : Nat) : ℚ)) * 100
    current_status := if s.is_capturing then "capturing" else "ready" }

/-- JSON values as `json.dump` produces them for this snapshot: numbers
(ints and floats, both exact here) and strings. -/
inductive JValue where
  | jnum (q : ℚ)
  | jstr (s : String)
deriving DecidableEq

/-- Persist operation `save_statistics` (lines 266-273): the `session_stats.json` object, in
the dict's insertion order. -/
def save_statistics (s : TriggerState) (now : ℚ) : List (String × JValue) :=
  let st := get_statistics s now
  [ ("total_triggers", .jnum st.total_triggers)
  , ("successful_captures", .jnum st.successful_captures)
  , ("failed_captures", .jnum st.failed_captures)
  , ("session_start", .jstr st.session_start)
  , ("uptime_seconds", .jnum st.uptime_seconds)
  , ("success_rate_percent", .jnum st.success_rate_percent)
  , ("current_status", .jstr st.current_status) ]

/-- Read a JSON number field. -/
def lookupNum (j : List (String × JValue)) (k : String) : Option ℚ :=
  match j.lookup k with
  | some (.jnum q) => some q
  | _ => none

/-- Read a JSON string field. -/
def lookupStr (j : List (String × JValue)) (k : String) : Option String :=
  match j.lookup k with
  | some (.jstr v) => some v
  | _ => none

/-- A JSON number that is a nonnegative integer, as a counter. -/
def qToNat (q : ℚ) : Option Nat :=
  if q.den = 1 ∧ 0 ≤ q.num then some q.num.toNat else none

/-- Reload a persisted snapshot from the JSON object. -/
def load_statistics (j : List (String × JValue)) : Option StatsSnapshot := do
  let t ← lookupNum j "total_triggers"
  let total ← qToNat t
  let sc ← lookupNum j "successful_captures"
  let succ ← qToNat sc
  let fc ← lookupNum j "failed_captures"
  let failed ← qToNat fc
  let start ← lookupStr j "session_start"
  let up ← lookupNum j "uptime_seconds"
  let rate ← lookupNum j "success_rate_percent"
  let status ← lookupStr j "current_status"
  pure { total_triggers := total
         successful_captures := succ
         failed_captures := failed
         session_start := start
         uptime_seconds := up
         success_rate_percent := rate
         current_status := status }

/-- A benign environment: gphoto2 exits 0, the stat fails (size unknown). -/
def okEnv : CaptureEnv := ⟨.exited 0 "", none⟩

/-- The callback never writes the busy latch, on any branch. -/
lemma callback_keeps_latch (s : TriggerState) (t : ℚ) :
    (pixhawk_trigger_callback s t).1.is_capturing = s.is_capturing := by
  unfold pixhawk_trigger_callback
  dsimp only
  split_ifs <;> rfl

/-- A dispatching callback run saw (and left) the latch false. -/
lemma callback_dispatch_latch_false (s : TriggerState) (t : ℚ) (n : Nat)
    (h : (pixhawk_trigger_callback s t).2 = .dispatched n) :
    s.is_capturing = false := by
  unfold pixhawk_trigger_callback at h
  dsimp only at h
  split_ifs at h with h1 h2 <;> simp_all

/-- The try/except body never writes the busy latch. -/
lemma capture_body_keeps_latch (s : TriggerState) (env : CaptureEnv) :
    (capture_body s env).1.is_capturing = s.is_capturing := by
  unfold capture_body
  rcases env.result with _ | _ | _ <;> simp <;> split_ifs <;> rfl

/-- The try/except body never writes the status LED. -/
lemma capture_body_keeps_led (s : TriggerState) (env : CaptureEnv) :
    (capture_body s env).1.status_led = s.status_led := by
  unfold capture_body
  rcases env.result with _ | _ | _ <;> simp <;> split_ifs <;> rfl

/-- Claim C1: every run of `execute_capture` ends with the busy latch
cleared (`is_capturing = false`) and the busy LED off, whatever the external
command did — normal exit, nonzero exit, timeout, or an unexpected
exception. -/
theorem c1_latch_cleared_on_every_exit (s : TriggerState) (env : CaptureEnv) :
    (execute_capture s env).1.is_capturing = false ∧
    (execute_capture s env).1.status_led = false := by
  constructor <;> rfl

/-- Claim C3: an edge outside the debounce window that finds the busy latch
set increments `total_triggers`, updates `last_trigger_time`, emits the busy
notice, and changes nothing else — in particular the latch stays true and no
capture is dispatched. -/
theorem c3_busy_edge_counted_not_dispatched (s : TriggerState) (t : ℚ)
    (hdeb : s.debounce_time ≤ t - s.last_trigger_time)
    (hbusy : s.is_capturing = true) :
    pixhawk_trigger_callback s t =
      ({ s with last_trigger_time := t
                total_triggers := s.total_triggers + 1 },
       .busyIgnored) := by
  unfold pixhawk_trigger_callback
  rw [if_neg (not_lt.mpr hdeb)]
  simp [hbusy]

/-- Witness for C3 at a concrete busy state and timestamp. -/
theorem c3_witness :
    pixhawk_trigger_callback { initState 0 "" with is_capturing := true } 1 =
      ({ initState 0 "" with is_capturing := true
                             last_trigger_time := 1
                             total_triggers := 1 },
       .busyIgnored) :=
  c3_busy_edge_counted_not_dispatched _ 1 (by norm_num [initState]) rfl

/-- Claim C9: an edge inside the debounce window leaves the whole controller
state identical (all counters, `last_trigger_time`, the latch, the LED) and
returns without dispatching anything. -/
theorem c9_debounced_edge_is_pure_noop (s : TriggerState) (t : ℚ)
    (h : t - s.last_trigger_time < s.debounce_time) :
    pixhawk_trigger_callback s t = (s, .discarded) := by
  unfold pixhawk_trigger_callback
  rw [if_pos h]

/-- Witness for C9: an edge 50 ms after the last accepted one is dropped
without touching the fresh state. -/
theorem c9_witness :
    pixhawk_trigger_callback (initState 0 "") (1/20) = (initState 0 "", .discarded) :=
  c9_debounced_edge_is_pure_noop _ _ (by norm_num [initState])

/-- Claim C5: `execute_capture` classifies each attempt and bumps exactly
one counter: exit 0 increments `successful_captures` (whatever the stat of
the file returned, including failure), nonzero exit increments
`failed_captures` as ProcessFailure, timeout increments `failed_captures`
with the distinct Timeout tag, and any other exception increments
`failed_captures` as UnexpectedError. -/
theorem c5_outcome_classification (s : TriggerState) (rc : Int) (d : String)
    (fs : Option ℚ) (hrc : rc ≠ 0) :
    execute_capture s ⟨.exited 0 d, fs⟩ =
      ({ s with capture_count := s.capture_count + 1
                successful_captures := s.successful_captures + 1
                is_capturing := false
                status_led := false },
       .success fs) ∧
    execute_capture s ⟨.exited rc d, fs⟩ =
      ({ s with failed_captures := s.failed_captures + 1
                is_capturing := false
                status_led := false },
       .processFailure d) ∧
    execute_capture s ⟨.timedOut, fs⟩ =
      ({ s with failed_captures := s.failed_captures + 1
                is_capturing := false
                status_led := false },
       .timeout) ∧
    execute_capture s ⟨.raised d, fs⟩ =
      ({ s with failed_captures := s.failed_captures + 1
                is_capturing := false
                status_led := false },
       .unexpectedError d) := by
  refine ⟨rfl, ?_, rfl, rfl⟩
  unfold execute_capture capture_body
  simp [hrc]

/-- Witness for C5: a nonzero exit at a concrete state is classified as
ProcessFailure. -/
theorem c5_witness :
    (1 : Int) ≠ 0 ∧
    (execute_capture (initState 0 "") ⟨.exited 1 "err", none⟩).2
      = .processFailure "err" :=
  ⟨one_ne_zero,
   congrArg Prod.snd
     (c5_outcome_classification (initState 0 "") 1 "err" none one_ne_zero).2.1⟩

/-- Claim C10: `capture_count` always equals `successful_captures`: both are
0 at construction, the callback touches neither, and `execute_capture`
increments both together exactly on a successful capture. -/
theorem c10_capture_count_tracks_successes (q : ℚ) (str : String)
    (s : TriggerState) (t : ℚ) (env : CaptureEnv)
    (h : s.capture_count = s.successful_captures) :
    (initState q str).capture_count = 0 ∧
    (initState q str).successful_captures = 0 ∧
    (pixhawk_trigger_callback s t).1.capture_count
      = (pixhawk_trigger_callback s t).1.successful_captures ∧
    (execute_capture s env).1.capture_count
      = (execute_capture s env).1.successful_captures := by
  refine ⟨rfl, rfl, ?_, ?_⟩
  · unfold pixhawk_trigger_callback
    dsimp only
    split_ifs <;> simpa using h
  · unfold execute_capture capture_body
    rcases env.result with rc | _ | _
    · dsimp only
      split_ifs <;> simpa using h
    · simpa using h
    · simpa using h

/-- Witness for C10 at the fresh state and a benign capture. -/
theorem c10_witness :
    (initState 0 "").capture_count = (initState 0 "").successful_captures ∧
    (execute_capture (initState 0 "") okEnv).1.capture_count
      = (execute_capture (initState 0 "") okEnv).1.successful_captures :=
  ⟨rfl, (c10_capture_count_tracks_successes 0 "" (initState 0 "") 1 okEnv rfl).2.2.2⟩

/-- Claim C6: the success rate reported by `get_statistics` (its percent
field, scaled back) is `successful_captures / max(total_triggers, 1)`: it is
0 when no trigger was counted and exactly `successful_captures /
total_triggers` otherwise. -/
theorem c6_success_rate (s : TriggerState) (now : ℚ)
    (h : s.successful_captures ≤ s.total_triggers) :
    (get_statistics s now).success_rate_percent / 100
      = (s.successful_captures : ℚ) / ((max s.total_triggers 1 : Nat) : ℚ) ∧
    (s.total_triggers = 0 →
      (get_statistics s now).success_rate_percent / 100 = 0) ∧
    (s.total_triggers ≠ 0 →
      (get_statistics s now).success_rate_percent / 100
        = (s.successful_captures : ℚ) / (s.total_triggers : ℚ)) := by
  have hbase : (get_statistics s now).success_rate_percent / 100
      = (s.successful_captures : ℚ) / ((max s.total_triggers 1 : Nat) : ℚ) := by
    unfold get_statistics
    field_simp
    ring
  refine ⟨hbase, ?_, ?_⟩
  · intro h0
    have hs : s.successful_captures = 0 := Nat.le_zero.mp (h0 ▸ h)
    rw [hbase, h0, hs]
    norm_num
  · intro h0
    rw [hbase, Nat.max_eq_left (Nat.one_le_iff_ne_zero.mpr h0)]

/-- Witness for C6 at a state with 2 triggers and 1 success. -/
theorem c6_witness :
    ({ initState 0 "" with total_triggers := 2
                           successful_captures := 1 } : TriggerState).successful_captures
      ≤ ({ initState 0 "" with total_triggers := 2
                               successful_captures := 1 } : TriggerState).total_triggers ∧
    (get_statistics
        { initState 0 "" with total_triggers := 2, successful_captures := 1 }
        5).success_rate_percent / 100
      = ((({ initState 0 "" with total_triggers := 2
                                 successful_captures := 1 } : TriggerState).successful_captures : ℚ))
        / ((({ initState 0 "" with total_triggers := 2
                                   successful_captures := 1 } : TriggerState).total_triggers : ℚ)) :=
  ⟨by norm_num,
   (c6_success_rate { initState 0 "" with total_triggers := 2, successful_captures := 1 } 5
      (by norm_num)).2.2 (by norm_num)⟩

/-- Claim C4: an edge strictly inside the debounce window is discarded
silently (`total_triggers` unchanged, never reported as a trigger); for
edges at session-relative times 0 ms, 50 ms and 150 ms with the 100 ms
window (the session base `t0` lying past the initial epoch value 0 of
`last_trigger_time`), the first and third edges are accepted and dispatched
and `total_triggers` ends at 2. -/
theorem c4_debounce_window (s : TriggerState) (t : ℚ)
    (hin : t - s.last_trigger_time < s.debounce_time)
    (t0 : ℚ) (h0 : 1/10 ≤ t0) :
    (pixhawk_trigger_callback s t).1.total_triggers = s.total_triggers ∧
    (pixhawk_trigger_callback s t).2 = .discarded ∧
    (runEdgesActs (initState 0 "") [t0, t0 + 1/20, t0 + 3/20]).2
      = [.dispatched 1, .discarded, .dispatched 2] ∧
    (runEdgesActs (initState 0 "") [t0, t0 + 1/20, t0 + 3/20]).1.total_triggers = 2 := by
  have hnb : ¬ (t0 < 1/10) := not_lt.mpr h0
  refine ⟨?_, ?_, ?_, ?_⟩
  · unfold pixhawk_trigger_callback
    rw [if_pos hin]
  · unfold pixhawk_trigger_callback
    rw [if_pos hin]
  · norm_num [runEdgesActs, pixhawk_trigger_callback, initState, hnb]
  · norm_num [runEdgesActs, pixhawk_trigger_callback, initState, hnb]

/-- Witness for C4: a concrete bounced edge 50 ms after the last accepted
one, and the scenario based at t0 = 1 s. -/
theorem c4_witness :
    (pixhawk_trigger_callback (initState 0 "") (1/20)).2 = .discarded ∧
    (runEdgesActs (initState 0 "") [1, 1 + 1/20, 1 + 3/20]).1.total_triggers = 2 :=
  ⟨(c4_debounce_window (initState 0 "") (1/20) (by norm_num [initState]) 1
      (by norm_num)).2.1,
   (c4_debounce_window (initState 0 "") (1/20) (by norm_num [initState]) 1
      (by norm_num)).2.2.2⟩

/-- Counterexample to claim C2: from the fresh system, one accepted edge
dispatches a capture worker, yet at that moment — the callback has returned,
the worker exists but has not run — `is_capturing` is still false: the latch
is not set before dispatch. -/
theorem c2_counterexample :
    (pixhawk_trigger_callback (initState 0 "") 1).2 = .dispatched 1 ∧
    (pixhawk_trigger_callback (initState 0 "") 1).1.is_capturing = false ∧
    (runCmds (initSys 0 "") [.edge 1 okEnv]).workers
      = [⟨1, okEnv, .latchPending⟩] ∧
    (runCmds (initSys 0 "") [.edge 1 okEnv]).st.is_capturing = false := by
  refine ⟨?_, ?_, ?_, ?_⟩ <;>
    norm_num [runCmds, sysStep, initSys, pixhawk_trigger_callback, initState, okEnv]

/-- Claim C2 as amended: the callback dispatches only when it saw the latch
false, and the dispatch itself leaves the latch false; the latch is set to
true by the dispatched executor as its own first step (before any capture
work), not by the callback before dispatch. -/
theorem c2_amended_latch_set_by_worker (s : TriggerState) (t : ℚ) (n : Nat)
    (hd : (pixhawk_trigger_callback s t).2 = .dispatched n)
    (sys : Sys) (i : Nat) (w : Worker)
    (hw : sys.workers[i]? = some w) (hp : w.phase = .latchPending) :
    s.is_capturing = false ∧
    (pixhawk_trigger_callback s t).1.is_capturing = false ∧
    (sysStep sys (.work i)).st.is_capturing = true ∧
    (sysStep sys (.work i)).workers[i]? = some { w with phase := .inBody } := by
  have hfalse : s.is_capturing = false := callback_dispatch_latch_false s t n hd
  have hlt : i < sys.workers.length := by
    by_contra hge
    rw [List.getElem?_eq_none (Nat.le_of_not_lt hge)] at hw
    exact Option.noConfusion hw
  refine ⟨hfalse, ?_, ?_, ?_⟩
  · rw [callback_keeps_latch]
    exact hfalse
  · simp [sysStep, hw, hp]
  · simp only [sysStep, hw, hp]
    exact List.getElem?_set_eq_of_lt _ hlt

/-- Witness for C2's amended claim at the system produced by one accepted
edge. -/
theorem c2_amended_witness :
    (sysStep { st := initState 0 "", workers := [⟨1, okEnv, .latchPending⟩] }
        (.work 0)).st.is_capturing = true :=
  (c2_amended_latch_set_by_worker (initState 0 "") 1 1
    (by norm_num [pixhawk_trigger_callback, initState])
    { st := initState 0 "", workers := [⟨1, okEnv, .latchPending⟩] } 0
    ⟨1, okEnv, .latchPending⟩ rfl rfl).2.2.1

/-- Counterexample to claim C8: two edges 1 s apart, with neither spawned
worker yet scheduled, leave TWO capture attempts in flight at the same
instant; moreover after a single dispatch the one in-flight attempt runs
with the latch still false.  The plain-boolean check-then-set of the source
does not enforce single flight against every interleaving. -/
theorem c8_counterexample :
    (runCmds (initSys 0 "") [.edge 1 okEnv, .edge 2 okEnv]).workers.length = 2 ∧
    (runCmds (initSys 0 "") [.edge 1 okEnv]).workers.length = 1 ∧
    (runCmds (initSys 0 "") [.edge 1 okEnv]).st.is_capturing = false := by
  refine ⟨?_, ?_, ?_⟩ <;>
    norm_num [runCmds, sysStep, initSys, pixhawk_trigger_callback, initState, okEnv]

/-- Single-flight invariant: at most one worker in flight, and the latch is
true exactly when one is. -/
def SysInv (sys : Sys) : Prop :=
  sys.workers.length ≤ 1 ∧
  (sys.st.is_capturing = true ↔ sys.workers.length = 1)

/-- Under the spec-side dispatch discipline (latch set before dispatch),
every scheduler command preserves the single-flight invariant. -/
lemma sysStepSpec_preserves_inv (sys : Sys) (c : Cmd) (h : SysInv sys) :
    SysInv (sysStepSpec sys c) := by
  obtain ⟨hlen, hiff⟩ := h
  cases c with
  | edge t env =>
    have hkeep := callback_keeps_latch sys.st t
    rcases hact : (pixhawk_trigger_callback sys.st t).2 with _ | _ | n
    · constructor
      · simpa [sysStepSpec, hact] using hlen
      · simpa [sysStepSpec, hact, hkeep] using hiff
    · constructor
      · simpa [sysStepSpec, hact] using hlen
      · simpa [sysStepSpec, hact, hkeep] using hiff
    · have hfalse : sys.st.is_capturing = false :=
        callback_dispatch_latch_false sys.st t n hact
      have hempty : sys.workers.length = 0 := by
        rcases Nat.lt_or_ge sys.workers.length 1 with h1 | h1
        · omega
        · exact absurd (hiff.mpr (by omega)) (by simp [hfalse])
      constructor
      · simp [sysStepSpec, hact, hempty]
      · simp [sysStepSpec, hact, hempty]
  | work i =>
    rcases hw : sys.workers[i]? with _ | w
    · constructor
      · simpa [sysStepSpec, sysStep, hw] using hlen
      · simpa [sysStepSpec, sysStep, hw] using hiff
    · have hlt : i < sys.workers.length := by
        by_contra hge
        rw [List.getElem?_eq_none (Nat.le_of_not_lt hge)] at hw
        exact Option.noConfusion hw
      have hone : sys.workers.length = 1 := by omega
      have hcap : sys.st.is_capturing = true := hiff.mpr hone
      rcases hp : w.phase with _ | _ | _
      · constructor
        · simpa [sysStepSpec, sysStep, hw, hp] using hlen
        · simp [sysStepSpec, sysStep, hw, hp, hone]
      · have hkeep := capture_body_keeps_latch sys.st w.env
        constructor
        · simpa [sysStepSpec, sysStep, hw, hp] using hlen
        · simp [sysStepSpec, sysStep, hw, hp, hkeep, hcap, hone]
      · constructor
        · simp [sysStepSpec, sysStep, hw, hp, List.length_eraseIdx, hlt]
          omega
        · simp [sysStepSpec, sysStep, hw, hp, List.length_eraseIdx, hlt]
          omega

/-- Claim C8 as amended: under the dispatch discipline the spec prescribes
(`on_edge` sets the latch before dispatching), every interleaving of edges
and worker steps keeps at most one capture attempt in flight, with the busy
latch true exactly while that one attempt is in flight.  (The source
discipline, where the worker itself sets the latch, violates this — see the
counterexample.) -/
theorem c8_amended_single_flight (q : ℚ) (str : String) (cmds : List Cmd) :
    (runCmdsSpec (initSys q str) cmds).workers.length ≤ 1 ∧
    ((runCmdsSpec (initSys q str) cmds).st.is_capturing = true ↔
      (runCmdsSpec (initSys q str) cmds).workers.length = 1) := by
  have hrun : ∀ (l : List Cmd) (sys : Sys), SysInv sys → SysInv (runCmdsSpec sys l) := by
    intro l
    induction l with
    | nil => intro sys h; exact h
    | cons c cs ih =>
        intro sys h
        exact ih (sysStepSpec sys c) (sysStepSpec_preserves_inv sys c h)
  exact hrun cmds (initSys q str) ⟨by simp [initSys], by simp [initSys, initState]⟩

/-- Claim C7: reloading the `session_stats.json` object written by
`save_statistics` reproduces the snapshot exactly — identical
`total_triggers`, `successful_captures`, `failed_captures` — and the
success rate recomputed from the reloaded counters equals the
`success_rate_percent` value that was written. -/
theorem c7_statistics_round_trip (s : TriggerState) (now : ℚ) :
    load_statistics (save_statistics s now) = some (get_statistics s now) ∧
    ((get_statistics s now).successful_captures : ℚ)
        / (((max (get_statistics s now).total_triggers 1 : Nat)) : ℚ) * 100
      = (get_statistics s now).success_rate_percent := by
  constructor
  · simp [load_statistics, save_statistics, get_statistics, lookupNum, lookupStr,
      qToNat, List.lookup]
  · rfl
